import Mathlib

/-!
Verification of the vutils 3D math library (Quaternion.ts, Matrix4.ts).

Shallow embedding over `ℝ`: each TypeScript class becomes a structure of
real scalars, static methods become pure functions, and in-place instance
methods become functions from the receiver state to the new receiver state.
Methods that `throw` return `Option` values (`none` models the thrown error).
`Math.sqrt`, `Math.sin`, `Math.cos`, `Math.atan2` and `Math.acos` are modelled
by the corresponding real functions.
-/

noncomputable section

namespace VUtils

/-- Modelled from the spec: `MathUtil.safeAcos` (the file `MathUtil.ts` is not
in the sources). The spec says: "clamp the arccos input to [-1,1] before
computing (a safe-acos utility) to avoid domain errors". -/
def safeAcos (x : ℝ) : ℝ := Real.arccos (max (-1) (min 1 x))

/-- Models the JavaScript builtin `Math.atan2(y, x)` by the argument of the
complex number `x + y·i` (principal value in `(-π, π]`, and `0` at the origin). -/
def atan2 (y x : ℝ) : ℝ := Complex.arg ⟨x, y⟩

/-- Modelled from the spec: the plain 3-component vector type `Vector3`
(the file `Vector3.ts` is not in the sources). -/
structure Vector3 where
  x : ℝ
  y : ℝ
  z : ℝ

/-- Modelled from the spec: `Vector3.getNorm`, the Euclidean length of the
3-vector (the file `Vector3.ts` is not in the sources). -/
def Vector3.getNorm (v : Vector3) : ℝ :=
  Real.sqrt (v.x * v.x + v.y * v.y + v.z * v.z)

/-- The sixteen scalar fields of `Matrix4`, in the source's declaration order:
a 4x3 rotation/scale/shear block `m11..m34` plus translation row `tx ty tz tw`. -/
@[ext] structure Matrix4 where
  m11 : ℝ
  m12 : ℝ
  m13 : ℝ
  m14 : ℝ
  m21 : ℝ
  m22 : ℝ
  m23 : ℝ
  m24 : ℝ
  m31 : ℝ
  m32 : ℝ
  m33 : ℝ
  m34 : ℝ
  tx : ℝ
  ty : ℝ
  tz : ℝ
  tw : ℝ

/-- The `Matrix4` constructor called with no arguments (all default values),
which is also what the instance method `identity()` assigns. -/
def Matrix4.identityMatrix : Matrix4 :=
  ⟨1, 0, 0, 0, 0, 1, 0, 0, 0, 0, 1, 0, 0, 0, 0, 1⟩

/-- Static `Matrix4.scalarMultiply(scalar, m)`. -/
def Matrix4.scalarMultiply (scalar : ℝ) (m : Matrix4) : Matrix4 :=
  ⟨m.m11 * scalar, m.m12 * scalar, m.m13 * scalar, m.m14 * scalar,
   m.m21 * scalar, m.m22 * scalar, m.m23 * scalar, m.m24 * scalar,
   m.m31 * scalar, m.m32 * scalar, m.m33 * scalar, m.m34 * scalar,
   m.tx * scalar, m.ty * scalar, m.tz * scalar, m.tw * scalar⟩

/-- The reducer used inside `Matrix4.matrix4Multiply`: the product `a * b`
in the library's row-vector convention. -/
def Matrix4.matrix4MultiplyStep (a b : Matrix4) : Matrix4 :=
  ⟨a.m11 * b.m11 + a.m12 * b.m21 + a.m13 * b.m31 + a.m14 * b.tx,
   a.m11 * b.m12 + a.m12 * b.m22 + a.m13 * b.m32 + a.m14 * b.ty,
   a.m11 * b.m13 + a.m12 * b.m23 + a.m13 * b.m33 + a.m14 * b.tz,
   a.m11 * b.m14 + a.m12 * b.m24 + a.m13 * b.m34 + a.m14 * b.tw,
   a.m21 * b.m11 + a.m22 * b.m21 + a.m23 * b.m31 + a.m24 * b.tx,
   a.m21 * b.m12 + a.m22 * b.m22 + a.m23 * b.m32 + a.m24 * b.ty,
   a.m21 * b.m13 + a.m22 * b.m23 + a.m23 * b.m33 + a.m24 * b.tz,
   a.m21 * b.m14 + a.m22 * b.m24 + a.m23 * b.m34 + a.m24 * b.tw,
   a.m31 * b.m11 + a.m32 * b.m21 + a.m33 * b.m31 + a.m34 * b.tx,
   a.m31 * b.m12 + a.m32 * b.m22 + a.m33 * b.m32 + a.m34 * b.ty,
   a.m31 * b.m13 + a.m32 * b.m23 + a.m33 * b.m33 + a.m34 * b.tz,
   a.m31 * b.m14 + a.m32 * b.m24 + a.m33 * b.m34 + a.m34 * b.tw,
   a.tx * b.m11 + a.ty * b.m21 + a.tz * b.m31 + a.tw * b.tx,
   a.tx * b.m12 + a.ty * b.m22 + a.tz * b.m32 + a.tw * b.ty,
   a.tx * b.m13 + a.ty * b.m23 + a.tz * b.m33 + a.tw * b.tz,
   a.tx * b.m14 + a.ty * b.m24 + a.tz * b.m34 + a.tw * b.tw⟩

/-- Static `Matrix4.matrix4Multiply(...args)`: throws (here `none`) when given
fewer than two operands, otherwise reduces the operand list left-to-right. -/
def Matrix4.matrix4Multiply (args : List Matrix4) : Option Matrix4 :=
  if args.length < 2 then none
  else
    match args with
    | [] => none
    | a :: rest => some (rest.foldl Matrix4.matrix4MultiplyStep a)

/-- The unscaled cofactor matrix `result` computed inside `Matrix4.inverse`,
transcribed term by term from the source. -/
def Matrix4.inverseAdjugate (m : Matrix4) : Matrix4 :=
  { m11 := m.m22 * m.m33 * m.tw - m.m22 * m.m34 * m.tz - m.m32 * m.m23 * m.tw
           + m.m32 * m.m24 * m.tz + m.ty * m.m23 * m.m34 - m.ty * m.m24 * m.m33
    m21 := - m.m21 * m.m33 * m.tw + m.m21 * m.m34 * m.tz + m.m31 * m.m23 * m.tw
           - m.m31 * m.m24 * m.tz - m.tx * m.m23 * m.m34 + m.tx * m.m24 * m.m33
    m31 := m.m21 * m.m32 * m.tw - m.m21 * m.m34 * m.ty - m.m31 * m.m22 * m.tw
           + m.m31 * m.m24 * m.ty + m.tx * m.m22 * m.m34 - m.tx * m.m24 * m.m32
    tx := - m.m21 * m.m32 * m.tz + m.m21 * m.m33 * m.ty + m.m31 * m.m22 * m.tz
          - m.m31 * m.m23 * m.ty - m.tx * m.m22 * m.m33 + m.tx * m.m23 * m.m32
    m12 := - m.m12 * m.m33 * m.tw + m.m12 * m.m34 * m.tz + m.m32 * m.m13 * m.tw
           - m.m32 * m.m14 * m.tz - m.ty * m.m13 * m.m34 + m.ty * m.m14 * m.m33
    m22 := m.m11 * m.m33 * m.tw - m.m11 * m.m34 * m.tz - m.m31 * m.m13 * m.tw
           + m.m31 * m.m14 * m.tz + m.tx * m.m13 * m.m34 - m.tx * m.m14 * m.m33
    m32 := - m.m11 * m.m32 * m.tw + m.m11 * m.m34 * m.ty + m.m31 * m.m12 * m.tw
           - m.m31 * m.m14 * m.ty - m.tx * m.m12 * m.m34 + m.tx * m.m14 * m.m32
    ty := m.m11 * m.m32 * m.tz - m.m11 * m.m33 * m.ty - m.m31 * m.m12 * m.tz
          + m.m31 * m.m13 * m.ty + m.tx * m.m12 * m.m33 - m.tx * m.m13 * m.m32
    m13 := m.m12 * m.m23 * m.tw - m.m12 * m.m24 * m.tz - m.m22 * m.m13 * m.tw
           + m.m22 * m.m14 * m.tz + m.ty * m.m13 * m.m24 - m.ty * m.m14 * m.m23
    m23 := - m.m11 * m.m23 * m.tw + m.m11 * m.m24 * m.tz + m.m21 * m.m13 * m.tw
           - m.m21 * m.m14 * m.tz - m.tx * m.m13 * m.m24 + m.tx * m.m14 * m.m23
    m33 := m.m11 * m.m22 * m.tw - m.m11 * m.m24 * m.ty - m.m21 * m.m12 * m.tw
           + m.m21 * m.m14 * m.ty + m.tx * m.m12 * m.m24 - m.tx * m.m14 * m.m22
    tz := - m.m11 * m.m22 * m.tz + m.m11 * m.m23 * m.ty + m.m21 * m.m12 * m.tz
          - m.m21 * m.m13 * m.ty - m.tx * m.m12 * m.m23 + m.tx * m.m13 * m.m22
    m14 := - m.m12 * m.m23 * m.m34 + m.m12 * m.m24 * m.m33 + m.m22 * m.m13 * m.m34
           - m.m22 * m.m14 * m.m33 - m.m32 * m.m13 * m.m24 + m.m32 * m.m14 * m.m23
    m24 := m.m11 * m.m23 * m.m34 - m.m11 * m.m24 * m.m33 - m.m21 * m.m13 * m.m34
           + m.m21 * m.m14 * m.m33 + m.m31 * m.m13 * m.m24 - m.m31 * m.m14 * m.m23
    m34 := - m.m11 * m.m22 * m.m34 + m.m11 * m.m24 * m.m32 + m.m21 * m.m12 * m.m34
           - m.m21 * m.m14 * m.m32 - m.m31 * m.m12 * m.m24 + m.m31 * m.m14 * m.m22
    tw := m.m11 * m.m22 * m.m33 - m.m11 * m.m23 * m.m32 - m.m21 * m.m12 * m.m33
          + m.m21 * m.m13 * m.m32 + m.m31 * m.m12 * m.m23 - m.m31 * m.m13 * m.m22 }

/-- The determinant computed inside `Matrix4.inverse` (first row of the
receiver against the first column of the cofactor matrix). -/
def Matrix4.inverseDet (m : Matrix4) : ℝ :=
  m.m11 * (Matrix4.inverseAdjugate m).m11 + m.m12 * (Matrix4.inverseAdjugate m).m21
  + m.m13 * (Matrix4.inverseAdjugate m).m31 + m.m14 * (Matrix4.inverseAdjugate m).tx

/-- Instance method `Matrix4.inverse()`, as a function from the receiver state
to the new receiver state: the cofactor matrix, scaled by `1/det` unless the
determinant is exactly zero. -/
def Matrix4.inverse (m : Matrix4) : Matrix4 :=
  if Matrix4.inverseDet m = 0 then Matrix4.inverseAdjugate m
  else Matrix4.scalarMultiply (1 / Matrix4.inverseDet m) (Matrix4.inverseAdjugate m)

/-- Instance method `Matrix4.transpose()`, as a function from the receiver
state to the new receiver state (the simultaneous 16-field reassignment). -/
def Matrix4.transpose (m : Matrix4) : Matrix4 :=
  ⟨m.m11, m.m21, m.m31, m.tx,
   m.m12, m.m22, m.m32, m.ty,
   m.m13, m.m23, m.m33, m.tz,
   m.m14, m.m24, m.m34, m.tw⟩

/-- Instance method `Matrix4.setOrtho(left, right, bottom, top, near, far)`:
builds the orthographic projection matrix and right-multiplies it into the
receiver. -/
def Matrix4.setOrtho (m : Matrix4) (left right bottom top near far : ℝ) : Matrix4 :=
  let resultMat4 : Matrix4 :=
    ⟨2 / (right - left), 0, 0, 0,
     0, 2 / (top - bottom), 0, 0,
     0, 0, - 2 / (far - near), 0,
     - (right + left) / (right - left), - (top + bottom) / (top - bottom),
     - (far + near) / (far - near), 1⟩
  Matrix4.matrix4MultiplyStep m resultMat4

/-- The elementary matrix `resultMat4` built inside `Matrix4.setShear`: a
default-constructed matrix, the `switch` on the axis name, the translation
reset line `tx = ty = tx = 0` (which assigns `tx` twice and never `tz`), and
the final `m14 = m24 = m34 = 0`, `tw = 1` assignments. -/
def Matrix4.setShearElementary (axis : Char) (s t : ℝ) : Matrix4 :=
  let r0 := Matrix4.identityMatrix
  let r1 :=
    match axis with
    | 'x' | 'X' =>
      { r0 with m11 := 1, m12 := 0, m13 := 0, m21 := 0, m22 := 1, m23 := 0,
                m31 := s, m32 := t, m33 := 1 }
    | 'y' | 'Y' =>
      { r0 with m11 := 1, m12 := 0, m13 := 0, m21 := s, m22 := 1, m23 := t,
                m31 := 0, m32 := 0, m33 := 1 }
    | 'z' | 'Z' =>
      { r0 with m11 := 1, m12 := s, m13 := t, m21 := 0, m22 := 1, m23 := 0,
                m31 := 0, m32 := 0, m33 := 1 }
    | _ => r0
  { r1 with tx := 0, ty := 0, m14 := 0, m24 := 0, m34 := 0, tw := 1 }

/-- Instance method `Matrix4.setShear(axis, s, t)`: right-multiplies the
elementary shear matrix into the receiver. -/
def Matrix4.setShear (m : Matrix4) (axis : Char) (s t : ℝ) : Matrix4 :=
  Matrix4.matrix4MultiplyStep m (Matrix4.setShearElementary axis s t)

/-- The four scalar fields of `Quaternion`, in the source's order. -/
@[ext] structure Quaternion where
  w : ℝ
  x : ℝ
  y : ℝ
  z : ℝ

/-- Static `Quaternion.negate(a)`. -/
def Quaternion.negate (a : Quaternion) : Quaternion := ⟨-a.w, -a.x, -a.y, -a.z⟩

/-- Static `Quaternion.getNorm(a)`. -/
def Quaternion.getNorm (a : Quaternion) : ℝ :=
  Real.sqrt (a.w * a.w + a.x * a.x + a.y * a.y + a.z * a.z)

/-- Static `Quaternion.getConjugate(a)`. -/
def Quaternion.getConjugate (a : Quaternion) : Quaternion := ⟨a.w, -a.x, -a.y, -a.z⟩

/-- Static `Quaternion.dotProduct(a, b)`. -/
def Quaternion.dotProduct (a b : Quaternion) : ℝ :=
  a.w * b.w + a.x * b.x + a.y * b.y + a.z * b.z

/-- The reducer used inside `Quaternion.crossProduct` (the library's
quaternion product, with the comment "与标准定义相反": reversed from the
standard definition). -/
def Quaternion.crossProductStep (a b : Quaternion) : Quaternion :=
  ⟨a.w * b.w - a.x * b.x - a.y * b.y - a.z * b.z,
   a.w * b.x + a.x * b.w + a.z * b.y - a.y * b.z,
   a.w * b.y + a.y * b.w + a.x * b.z - a.z * b.x,
   a.w * b.z + a.z * b.w + a.y * b.x - a.x * b.y⟩

/-- Static `Quaternion.crossProduct(...args)`: throws (here `none`) when given
fewer than two operands, otherwise reduces the operand list left-to-right. -/
def Quaternion.crossProduct (args : List Quaternion) : Option Quaternion :=
  if args.length < 2 then none
  else
    match args with
    | [] => none
    | a :: rest => some (rest.foldl Quaternion.crossProductStep a)

/-- Static `Quaternion.scalarMultiply(scalar, a)`. -/
def Quaternion.scalarMultiply (scalar : ℝ) (a : Quaternion) : Quaternion :=
  ⟨scalar * a.w, scalar * a.x, scalar * a.y, scalar * a.z⟩

/-- Static `Quaternion.pow(a, exponent)`: returns `a` unchanged near identity,
otherwise rebuilds from `alpha = safeAcos(a.w)`. Note the source returns
`Math.cos(alpha)` (not `Math.cos(newAlpha)`) as the `w` component. -/
def Quaternion.pow (a : Quaternion) (exponent : ℝ) : Quaternion :=
  if 0.999 < |a.w| then a
  else
    let alpha := safeAcos a.w
    let newAlpha := alpha * exponent
    let mult := Real.sin newAlpha / Real.sin alpha
    ⟨Real.cos alpha, a.x * mult, a.y * mult, a.z * mult⟩

/-- Static `Quaternion.slerp(a, b, t)`: shortest-arc sign fix, near-parallel
linear weights, otherwise spherical weights; the final `z` component combines
with `k1` twice, exactly as in the source. -/
def Quaternion.slerp (a b : Quaternion) (t : ℝ) : Quaternion :=
  let cosOmega := Quaternion.dotProduct a b
  let b1 := if cosOmega < 0 then Quaternion.negate b else b
  let cosOmega1 := if cosOmega < 0 then -cosOmega else cosOmega
  let k : ℝ × ℝ :=
    if cosOmega1 > 0.9999 then (1 - t, t)
    else
      let sinOmega := Real.sqrt (1 - cosOmega1 * cosOmega1)
      let omega := atan2 sinOmega cosOmega1
      (Real.sin ((1 - t) * omega) / sinOmega, Real.sin (t * omega) / sinOmega)
  let k0 := k.1
  let k1 := k.2
  ⟨a.w * k0 + b1.w * k1,
   a.x * k0 + b1.x * k1,
   a.y * k0 + b1.y * k1,
   a.z * k1 + b1.z * k1⟩

/-- Static `Quaternion.fromRotationMatrix(m)`: largest-diagonal-term branch
selection (the three successive comparisons updating `biggestIndex` and
`fourBiggestSquaredMinus1`), then the `switch` on `biggestIndex`; a switch
value outside 0..3 would leave the initial zero components. -/
def Quaternion.fromRotationMatrix (m : Matrix4) : Quaternion :=
  let fourWSquaredMinus1 := m.m11 + m.m22 + m.m33
  let fourXSquaredMinus1 := m.m11 - m.m22 - m.m33
  let fourYSquaredMinus1 := m.m22 - m.m11 - m.m33
  let fourZSquaredMinus1 := m.m33 - m.m11 - m.m22
  let p1 : ℕ × ℝ :=
    if fourXSquaredMinus1 > fourWSquaredMinus1 then (1, fourXSquaredMinus1)
    else (0, fourWSquaredMinus1)
  let p2 : ℕ × ℝ := if fourYSquaredMinus1 > p1.2 then (2, fourYSquaredMinus1) else p1
  let p3 : ℕ × ℝ := if fourZSquaredMinus1 > p2.2 then (3, fourZSquaredMinus1) else p2
  let biggestVal := Real.sqrt (p3.2 + 1) * 0.5
  let mult := 0.25 / biggestVal
  if p3.1 = 0 then
    ⟨biggestVal, (m.m23 - m.m32) * mult, (m.m31 - m.m13) * mult, (m.m12 - m.m21) * mult⟩
  else if p3.1 = 1 then
    ⟨biggestVal, (m.m23 - m.m32) * mult, (m.m12 + m.m21) * mult, (m.m31 + m.m13) * mult⟩
  else if p3.1 = 2 then
    ⟨biggestVal, (m.m31 - m.m13) * mult, (m.m12 + m.m21) * mult, (m.m23 + m.m32) * mult⟩
  else if p3.1 = 3 then
    ⟨biggestVal, (m.m12 - m.m21) * mult, (m.m31 + m.m13) * mult, (m.m23 + m.m13) * mult⟩
  else ⟨0, 0, 0, 0⟩

/-- Instance method `Quaternion.setToRotateAboutAxis(axis, theta)`, as a
function returning the new receiver state (`none` models the thrown error).
The source's guard is `Vector3.getNorm(axis) - 1 >= 0.01`, with no absolute
value. -/
def Quaternion.setToRotateAboutAxis (axis : Vector3) (theta : ℝ) : Option Quaternion :=
  if 0.01 ≤ Vector3.getNorm axis - 1 then none
  else some ⟨Real.cos (theta / 2), Real.sin (theta / 2) * axis.x,
             Real.sin (theta / 2) * axis.y, Real.sin (theta / 2) * axis.z⟩

/-- Instance method `Quaternion.normalize()`, as a function from the receiver
state to the new receiver state: divide by the norm when it is nonzero
(JavaScript truthiness of `norm`), otherwise reset to the identity quaternion. -/
def Quaternion.normalize (q : Quaternion) : Quaternion :=
  if Quaternion.getNorm q ≠ 0 then
    ⟨q.w / Quaternion.getNorm q, q.x / Quaternion.getNorm q,
     q.y / Quaternion.getNorm q, q.z / Quaternion.getNorm q⟩
  else ⟨1, 0, 0, 0⟩

/-- Instance method `Quaternion.getRotationAngle()`. -/
def Quaternion.getRotationAngle (q : Quaternion) : ℝ := 2 * safeAcos q.w

/-- Static `Matrix4.fromObjectToWorldQuaternion(q)`: the closed-form 3x3
block built from the quaternion components. -/
def Matrix4.fromObjectToWorldQuaternion (q : Quaternion) : Matrix4 :=
  ⟨1 - 2 * q.y * q.y - 2 * q.z * q.z,
   2 * q.x * q.y - 2 * q.w * q.z,
   2 * q.x * q.z + 2 * q.w * q.y,
   0,
   2 * q.x * q.y + 2 * q.w * q.z,
   1 - 2 * q.x * q.x - 2 * q.z * q.z,
   2 * q.y * q.z - 2 * q.w * q.x,
   0,
   2 * q.x * q.z - 2 * q.w * q.y,
   2 * q.y * q.z + 2 * q.w * q.x,
   1 - 2 * q.x * q.x - 2 * q.y * q.y,
   0, 0, 0, 0, 1⟩

/-- The standard Hamilton product `p * q` of two quaternions, written from the
spec's words ("the standard imaginary-part formulas"); used to compare the
library's reversed convention against the mathematical one. -/
def hamiltonProduct (p q : Quaternion) : Quaternion :=
  ⟨p.w * q.w - p.x * q.x - p.y * q.y - p.z * q.z,
   p.w * q.x + p.x * q.w + p.y * q.z - p.z * q.y,
   p.w * q.y + p.y * q.w + p.z * q.x - p.x * q.z,
   p.w * q.z + p.z * q.w + p.x * q.y - p.y * q.x⟩

/-- C1. The claim states `slerp(a, a, t) = a` for every quaternion `a` and
every `t`. The code fails it: at `a = (0,0,0,1)`, `t = 0`, the near-parallel
branch is taken with weights `k0 = 1`, `k1 = 0`, but the `z` component is
combined as `a.z*k1 + b.z*k1`, so the result is the zero quaternion, not `a`. -/
theorem slerp_same_quaternion_fails :
    Quaternion.slerp ⟨0, 0, 0, 1⟩ ⟨0, 0, 0, 1⟩ 0 = ⟨0, 0, 0, 0⟩ ∧
    Quaternion.slerp ⟨0, 0, 0, 1⟩ ⟨0, 0, 0, 1⟩ 0 ≠ ⟨0, 0, 0, 1⟩ := by
  have h : Quaternion.slerp ⟨0, 0, 0, 1⟩ ⟨0, 0, 0, 1⟩ 0 = ⟨0, 0, 0, 0⟩ := by
    simp only [Quaternion.slerp, Quaternion.dotProduct]
    norm_num
  refine ⟨h, ?_⟩
  rw [h]
  intro hc
  have := congrArg Quaternion.z hc
  norm_num at this

/-- C2. The claim states the quaternion-to-matrix-to-quaternion round trip
yields `q` or `-q`, including when the z-diagonal branch (biggestIndex 3) is
selected. The code fails it: for the unit quaternion `q = (0,0,0,1)` the
matrix is `diag(-1,-1,1)`, branch 3 is selected, and the extraction returns
`(1,0,0,0)`, which is neither `q` nor `-q`. -/
theorem fromRotationMatrix_roundtrip_fails :
    Quaternion.fromRotationMatrix (Matrix4.fromObjectToWorldQuaternion ⟨0, 0, 0, 1⟩)
      = ⟨1, 0, 0, 0⟩ ∧
    (⟨1, 0, 0, 0⟩ : Quaternion) ≠ ⟨0, 0, 0, 1⟩ ∧
    (⟨1, 0, 0, 0⟩ : Quaternion) ≠ Quaternion.negate ⟨0, 0, 0, 1⟩ := by
  have h4 : Real.sqrt 4 = 2 := by
    rw [show (4 : ℝ) = 2 ^ 2 by norm_num, Real.sqrt_sq (by norm_num : (0:ℝ) ≤ 2)]
  refine ⟨?_, ?_, ?_⟩
  · simp only [Quaternion.fromRotationMatrix, Matrix4.fromObjectToWorldQuaternion]
    norm_num [h4]
  · intro hc
    have := congrArg Quaternion.w hc
    norm_num at this
  · intro hc
    have := congrArg Quaternion.w hc
    simp only [Quaternion.negate] at this
    norm_num at this

/-- C3 counterexample. The claim states `setOrtho(-1,1,-1,1,-1,1)` on an
identity receiver yields exactly the identity matrix; in fact the resulting
`m33` component is `-2/(far-near) = -1`, not `1`. -/
theorem setOrtho_identity_claim_false :
    Matrix4.setOrtho Matrix4.identityMatrix (-1) 1 (-1) 1 (-1) 1
      ≠ Matrix4.identityMatrix := by
  intro hc
  have := congrArg Matrix4.m33 hc
  simp only [Matrix4.setOrtho, Matrix4.matrix4MultiplyStep, Matrix4.identityMatrix] at this
  norm_num at this

/-- C3 amended. `setOrtho(-1,1,-1,1,-1,1)` on an identity receiver yields the
matrix that is the identity except for `m33 = -1` (the standard z-flipping
orthographic matrix for this symmetric volume). -/
theorem setOrtho_symmetric_cube :
    Matrix4.setOrtho Matrix4.identityMatrix (-1) 1 (-1) 1 (-1) 1
      = ⟨1, 0, 0, 0, 0, 1, 0, 0, 0, 0, -1, 0, 0, 0, 0, 1⟩ := by
  simp only [Matrix4.setOrtho, Matrix4.matrix4MultiplyStep, Matrix4.identityMatrix]
  norm_num

/-- C4. The claim states that away from the near-identity guard,
`pow(a, exponent)` has `w = cos(newAlpha)` with `newAlpha = alpha * exponent`.
The code returns `w = cos(alpha)` instead: at `a = (0,1,0,0)`, `exponent = 2`,
the code yields the zero quaternion with `w = cos(π/2) = 0`, while the claimed
`w` is `cos(π) = -1`. -/
theorem pow_w_component_fails :
    Quaternion.pow ⟨0, 1, 0, 0⟩ 2 = ⟨0, 0, 0, 0⟩ ∧
    Real.cos (safeAcos 0 * 2) = -1 := by
  have hs : safeAcos 0 = Real.pi / 2 := by
    simp only [safeAcos]
    norm_num [Real.arccos_zero]
  have hpi : Real.pi / 2 * 2 = Real.pi := by ring
  constructor
  · simp only [Quaternion.pow, hs]
    norm_num [hpi, Real.sin_pi, Real.cos_pi_div_two, Real.sin_pi_div_two]
  · rw [hs, hpi, Real.cos_pi]

/-- C5. `crossProduct(a, b)` equals the standard Hamilton product `b * a`
component-wise: the library's operand order is reversed from the mathematical
convention. -/
theorem crossProduct_is_reversed_hamilton (a b : Quaternion) :
    Quaternion.crossProduct [a, b] = some (hamiltonProduct b a) := by
  simp only [Quaternion.crossProduct, List.length_cons, List.length_nil]
  norm_num
  simp only [List.foldl_cons, List.foldl_nil, Quaternion.crossProductStep, hamiltonProduct]
  ext <;> dsimp <;> ring

/-- C8. The claim states `setToRotateAboutAxis` rejects any axis whose norm
deviates from 1 by more than 0.01, in particular an axis of norm 0.5. The
code's guard is one-sided (`norm - 1 >= 0.01`, no absolute value): the axis
`(0.5, 0, 0)` of norm `0.5` is accepted and, with `theta = 0`, the quaternion
`(1, 0, 0, 0)` is produced instead of an error. -/
theorem setToRotateAboutAxis_accepts_short_axis :
    Quaternion.setToRotateAboutAxis ⟨0.5, 0, 0⟩ 0 = some ⟨1, 0, 0, 0⟩ ∧
    |Vector3.getNorm ⟨0.5, 0, 0⟩ - 1| > 0.01 := by
  have hn : Vector3.getNorm ⟨0.5, 0, 0⟩ = 0.5 := by
    simp only [Vector3.getNorm]
    rw [show (0.5 * 0.5 + 0 * 0 + 0 * 0 : ℝ) = 0.5 ^ 2 by norm_num,
      Real.sqrt_sq (by norm_num : (0:ℝ) ≤ 0.5)]
  constructor
  · simp only [Quaternion.setToRotateAboutAxis, hn]
    norm_num [Real.cos_zero, Real.sin_zero]
  · rw [hn, show (0.5 - 1 : ℝ) = -0.5 by norm_num, abs_neg,
      abs_of_pos (by norm_num : (0:ℝ) < 0.5)]
    norm_num

/-- C7. After `normalize()`: a receiver of exactly zero norm becomes the
identity quaternion; otherwise every component is divided by the norm and the
norm of the result is exactly 1 in real arithmetic. -/
theorem normalize_fallback_and_unit_norm (q : Quaternion) :
    (Quaternion.getNorm q = 0 → Quaternion.normalize q = ⟨1, 0, 0, 0⟩) ∧
    (Quaternion.getNorm q ≠ 0 →
      Quaternion.normalize q =
        ⟨q.w / Quaternion.getNorm q, q.x / Quaternion.getNorm q,
         q.y / Quaternion.getNorm q, q.z / Quaternion.getNorm q⟩ ∧
      Quaternion.getNorm (Quaternion.normalize q) = 1) := by
  constructor
  · intro h
    rw [Quaternion.normalize, if_neg (by simp [h])]
  · intro h
    have heq : Quaternion.normalize q =
        ⟨q.w / Quaternion.getNorm q, q.x / Quaternion.getNorm q,
         q.y / Quaternion.getNorm q, q.z / Quaternion.getNorm q⟩ := by
      rw [Quaternion.normalize, if_pos h]
    refine ⟨heq, ?_⟩
    have hs0 : (0:ℝ) ≤ q.w * q.w + q.x * q.x + q.y * q.y + q.z * q.z :=
      add_nonneg (add_nonneg (add_nonneg (mul_self_nonneg q.w) (mul_self_nonneg q.x))
        (mul_self_nonneg q.y)) (mul_self_nonneg q.z)
    have hss : Quaternion.getNorm q * Quaternion.getNorm q
        = q.w * q.w + q.x * q.x + q.y * q.y + q.z * q.z := Real.mul_self_sqrt hs0
    have hsum : q.w / Quaternion.getNorm q * (q.w / Quaternion.getNorm q)
        + q.x / Quaternion.getNorm q * (q.x / Quaternion.getNorm q)
        + q.y / Quaternion.getNorm q * (q.y / Quaternion.getNorm q)
        + q.z / Quaternion.getNorm q * (q.z / Quaternion.getNorm q) = 1 := by
      field_simp
      ring_nf
      ring_nf at hss
      linarith [hss]
    rw [heq]
    show Real.sqrt _ = 1
    rw [hsum, Real.sqrt_one]

/-- C7 witness: the zero-norm fallback at the zero quaternion, and the unit
result norm at the quaternion `(3,0,0,0)`. -/
theorem normalize_fallback_and_unit_norm_witness :
    Quaternion.normalize ⟨0, 0, 0, 0⟩ = ⟨1, 0, 0, 0⟩ ∧
    Quaternion.getNorm (Quaternion.normalize ⟨3, 0, 0, 0⟩) = 1 := by
  have hq : Quaternion.getNorm ⟨3, 0, 0, 0⟩ = 3 := by
    simp only [Quaternion.getNorm]
    rw [show (3 * 3 + 0 * 0 + 0 * 0 + 0 * 0 : ℝ) = 3 ^ 2 by norm_num,
      Real.sqrt_sq (by norm_num : (0:ℝ) ≤ 3)]
  exact ⟨(normalize_fallback_and_unit_norm ⟨0, 0, 0, 0⟩).1
      (by simp only [Quaternion.getNorm]; norm_num),
    ((normalize_fallback_and_unit_norm ⟨3, 0, 0, 0⟩).2 (by rw [hq]; norm_num)).2⟩

/-- C9. `Quaternion.crossProduct` and `Matrix4.matrix4Multiply` fail (throw)
exactly when called with fewer than two operands; on two or more operands
they return the left-to-right reduced product. -/
theorem multiply_arity_and_reduction :
    (∀ qs : List Quaternion, (Quaternion.crossProduct qs).isSome ↔ 2 ≤ qs.length) ∧
    (∀ ms : List Matrix4, (Matrix4.matrix4Multiply ms).isSome ↔ 2 ≤ ms.length) ∧
    (∀ (a b : Quaternion) (rest : List Quaternion),
      Quaternion.crossProduct (a :: b :: rest)
        = some ((b :: rest).foldl Quaternion.crossProductStep a)) ∧
    (∀ (a b : Matrix4) (rest : List Matrix4),
      Matrix4.matrix4Multiply (a :: b :: rest)
        = some ((b :: rest).foldl Matrix4.matrix4MultiplyStep a)) := by
  refine ⟨?_, ?_, ?_, ?_⟩
  · intro qs
    rcases qs with _ | ⟨a, _ | ⟨b, rest⟩⟩ <;> simp [Quaternion.crossProduct]
  · intro ms
    rcases ms with _ | ⟨a, _ | ⟨b, rest⟩⟩ <;> simp [Matrix4.matrix4Multiply]
  · intro a b rest
    simp [Quaternion.crossProduct]
  · intro a b rest
    simp [Matrix4.matrix4Multiply]

/-- C9 witness: concrete instances of the arity contract. -/
theorem multiply_arity_witness :
    Quaternion.crossProduct [⟨1, 0, 0, 0⟩, ⟨1, 0, 0, 0⟩]
      = some ([(⟨1, 0, 0, 0⟩ : Quaternion)].foldl Quaternion.crossProductStep ⟨1, 0, 0, 0⟩) ∧
    ((Quaternion.crossProduct []).isSome ↔ 2 ≤ ([] : List Quaternion).length) ∧
    ((Matrix4.matrix4Multiply [Matrix4.identityMatrix]).isSome
      ↔ 2 ≤ [Matrix4.identityMatrix].length) :=
  ⟨multiply_arity_and_reduction.2.2.1 ⟨1, 0, 0, 0⟩ ⟨1, 0, 0, 0⟩ [],
   multiply_arity_and_reduction.1 [],
   multiply_arity_and_reduction.2.1 [Matrix4.identityMatrix]⟩

/-- C10. For every shear axis among x, X, y, Y, z, Z and all scalars, the
elementary matrix built inside `setShear` has translation row `(0, 0, 0, 1)`
(`tz` stays zero only via the constructor default, since the reset line
assigns `tx` twice), and `setShear` on an identity receiver also yields a
matrix whose translation row is exactly `(0, 0, 0, 1)`. -/
theorem setShear_translation_row (axis : Char)
    (h : axis ∈ (['x', 'X', 'y', 'Y', 'z', 'Z'] : List Char)) (s t : ℝ) :
    ((Matrix4.setShearElementary axis s t).tx = 0 ∧
     (Matrix4.setShearElementary axis s t).ty = 0 ∧
     (Matrix4.setShearElementary axis s t).tz = 0 ∧
     (Matrix4.setShearElementary axis s t).tw = 1) ∧
    ((Matrix4.setShear Matrix4.identityMatrix axis s t).tx = 0 ∧
     (Matrix4.setShear Matrix4.identityMatrix axis s t).ty = 0 ∧
     (Matrix4.setShear Matrix4.identityMatrix axis s t).tz = 0 ∧
     (Matrix4.setShear Matrix4.identityMatrix axis s t).tw = 1) := by
  fin_cases h <;>
    norm_num [Matrix4.setShear, Matrix4.setShearElementary,
      Matrix4.matrix4MultiplyStep, Matrix4.identityMatrix]

/-- The library's matrix product is associative. -/
theorem matrix4MultiplyStep_assoc (a b c : Matrix4) :
    Matrix4.matrix4MultiplyStep (Matrix4.matrix4MultiplyStep a b) c
      = Matrix4.matrix4MultiplyStep a (Matrix4.matrix4MultiplyStep b c) := by
  ext <;> simp only [Matrix4.matrix4MultiplyStep] <;> ring

/-- The default-constructed matrix is a left identity for the product. -/
theorem matrix4MultiplyStep_id_left (a : Matrix4) :
    Matrix4.matrix4MultiplyStep Matrix4.identityMatrix a = a := by
  ext <;> simp only [Matrix4.matrix4MultiplyStep, Matrix4.identityMatrix] <;> ring

/-- The default-constructed matrix is a right identity for the product. -/
theorem matrix4MultiplyStep_id_right (a : Matrix4) :
    Matrix4.matrix4MultiplyStep a Matrix4.identityMatrix = a := by
  ext <;> simp only [Matrix4.matrix4MultiplyStep, Matrix4.identityMatrix] <;> ring

/-- Scalar multiplication moves across the matrix product. -/
theorem matrix4MultiplyStep_scalar_right (c : ℝ) (a b : Matrix4) :
    Matrix4.matrix4MultiplyStep a (Matrix4.scalarMultiply c b)
      = Matrix4.scalarMultiply c (Matrix4.matrix4MultiplyStep a b) := by
  ext <;> simp only [Matrix4.matrix4MultiplyStep, Matrix4.scalarMultiply] <;> ring

/-- Composition of scalar multiplications. -/
theorem scalarMultiply_scalarMultiply (c d : ℝ) (x : Matrix4) :
    Matrix4.scalarMultiply c (Matrix4.scalarMultiply d x)
      = Matrix4.scalarMultiply (d * c) x := by
  ext <;> simp only [Matrix4.scalarMultiply] <;> ring

/-- Scalar multiplication by one. -/
theorem scalarMultiply_one (x : Matrix4) : Matrix4.scalarMultiply 1 x = x := by
  ext <;> simp only [Matrix4.scalarMultiply] <;> ring

/-- Cramer's rule for the code's cofactor matrix: the receiver times its
unscaled cofactor matrix is the determinant times the identity. -/
theorem adjugate_cramer (m : Matrix4) :
    Matrix4.matrix4MultiplyStep m (Matrix4.inverseAdjugate m)
      = Matrix4.scalarMultiply (Matrix4.inverseDet m) Matrix4.identityMatrix := by
  ext <;>
    simp only [Matrix4.matrix4MultiplyStep, Matrix4.scalarMultiply,
      Matrix4.inverseAdjugate, Matrix4.inverseDet, Matrix4.identityMatrix] <;>
    ring

/-- When the determinant is nonzero, the scaled cofactor matrix is a right
inverse of the receiver. -/
theorem matrix4MultiplyStep_inverse_right (m : Matrix4)
    (hd : Matrix4.inverseDet m ≠ 0) :
    Matrix4.matrix4MultiplyStep m
      (Matrix4.scalarMultiply (1 / Matrix4.inverseDet m) (Matrix4.inverseAdjugate m))
      = Matrix4.identityMatrix := by
  rw [matrix4MultiplyStep_scalar_right, adjugate_cramer, scalarMultiply_scalarMultiply,
    show Matrix4.inverseDet m * (1 / Matrix4.inverseDet m) = 1 from by field_simp,
    scalarMultiply_one]

/-- C6. For a Matrix4 whose upper 3x3 block is orthonormal (rows and columns
unit length and mutually orthogonal), whose fourth column is `(0,0,0,1)` and
whose translation row is `(0,0,0,1)`, the in-place `inverse()` result equals
the in-place `transpose()` result exactly. -/
theorem inverse_eq_transpose_of_orthonormal (M : Matrix4)
    (h14 : M.m14 = 0) (h24 : M.m24 = 0) (h34 : M.m34 = 0)
    (htx : M.tx = 0) (hty : M.ty = 0) (htz : M.tz = 0) (htw : M.tw = 1)
    (hr11 : M.m11 * M.m11 + M.m12 * M.m12 + M.m13 * M.m13 = 1)
    (hr12 : M.m11 * M.m21 + M.m12 * M.m22 + M.m13 * M.m23 = 0)
    (hr13 : M.m11 * M.m31 + M.m12 * M.m32 + M.m13 * M.m33 = 0)
    (hr22 : M.m21 * M.m21 + M.m22 * M.m22 + M.m23 * M.m23 = 1)
    (hr23 : M.m21 * M.m31 + M.m22 * M.m32 + M.m23 * M.m33 = 0)
    (hr33 : M.m31 * M.m31 + M.m32 * M.m32 + M.m33 * M.m33 = 1)
    (hc11 : M.m11 * M.m11 + M.m21 * M.m21 + M.m31 * M.m31 = 1)
    (hc12 : M.m11 * M.m12 + M.m21 * M.m22 + M.m31 * M.m32 = 0)
    (hc13 : M.m11 * M.m13 + M.m21 * M.m23 + M.m31 * M.m33 = 0)
    (hc22 : M.m12 * M.m12 + M.m22 * M.m22 + M.m32 * M.m32 = 1)
    (hc23 : M.m12 * M.m13 + M.m22 * M.m23 + M.m32 * M.m33 = 0)
    (hc33 : M.m13 * M.m13 + M.m23 * M.m23 + M.m33 * M.m33 = 1) :
    Matrix4.inverse M = Matrix4.transpose M := by
  obtain ⟨m11, m12, m13, m14, m21, m22, m23, m24, m31, m32, m33, m34, tx, ty, tz, tw⟩ := M
  dsimp only at *
  subst h14 h24 h34 htx hty htz htw
  set M' : Matrix4 := ⟨m11, m12, m13, 0, m21, m22, m23, 0, m31, m32, m33, 0, 0, 0, 0, 1⟩
    with hM'
  have hdet : Matrix4.inverseDet M'
      = m11 * (m22 * m33) - m11 * (m23 * m32) - m12 * (m21 * m33) + m12 * (m23 * m31)
        + m13 * (m21 * m32) - m13 * (m22 * m31) := by
    simp only [hM', Matrix4.inverseDet, Matrix4.inverseAdjugate]
    ring
  have hd1 : Matrix4.inverseDet M' * Matrix4.inverseDet M' = 1 := by
    have key : Matrix4.inverseDet M' * Matrix4.inverseDet M' =
        (m11 * m11 + m12 * m12 + m13 * m13) *
          ((m21 * m21 + m22 * m22 + m23 * m23) * (m31 * m31 + m32 * m32 + m33 * m33)
            - (m21 * m31 + m22 * m32 + m23 * m33) * (m21 * m31 + m22 * m32 + m23 * m33))
        - (m11 * m21 + m12 * m22 + m13 * m23) *
          ((m11 * m21 + m12 * m22 + m13 * m23) * (m31 * m31 + m32 * m32 + m33 * m33)
            - (m21 * m31 + m22 * m32 + m23 * m33) * (m11 * m31 + m12 * m32 + m13 * m33))
        + (m11 * m31 + m12 * m32 + m13 * m33) *
          ((m11 * m21 + m12 * m22 + m13 * m23) * (m21 * m31 + m22 * m32 + m23 * m33)
            - (m21 * m21 + m22 * m22 + m23 * m23) * (m11 * m31 + m12 * m32 + m13 * m33)) := by
      rw [hdet]; ring
    rw [hr11, hr12, hr13, hr22, hr23, hr33] at key
    rw [key]; norm_num
  have hd0 : Matrix4.inverseDet M' ≠ 0 := by
    intro h0
    rw [h0, mul_zero] at hd1
    exact zero_ne_one hd1
  have hMN : Matrix4.matrix4MultiplyStep M'
      (Matrix4.scalarMultiply (1 / Matrix4.inverseDet M') (Matrix4.inverseAdjugate M'))
      = Matrix4.identityMatrix := matrix4MultiplyStep_inverse_right M' hd0
  have hMtM : Matrix4.matrix4MultiplyStep (Matrix4.transpose M') M'
      = Matrix4.identityMatrix := by
    simp only [hM', Matrix4.transpose, Matrix4.matrix4MultiplyStep,
      Matrix4.identityMatrix, Matrix4.mk.injEq]
    refine ⟨?_, ?_, ?_, ?_, ?_, ?_, ?_, ?_, ?_, ?_, ?_, ?_, ?_, ?_, ?_, ?_⟩
    · linear_combination hc11
    · linear_combination hc12
    · linear_combination hc13
    · ring
    · linear_combination hc12
    · linear_combination hc22
    · linear_combination hc23
    · ring
    · linear_combination hc13
    · linear_combination hc23
    · linear_combination hc33
    · ring
    · ring
    · ring
    · ring
    · ring
  have hfinal : Matrix4.scalarMultiply (1 / Matrix4.inverseDet M')
      (Matrix4.inverseAdjugate M') = Matrix4.transpose M' := by
    calc
      Matrix4.scalarMultiply (1 / Matrix4.inverseDet M') (Matrix4.inverseAdjugate M')
          = Matrix4.matrix4MultiplyStep Matrix4.identityMatrix
              (Matrix4.scalarMultiply (1 / Matrix4.inverseDet M')
                (Matrix4.inverseAdjugate M')) :=
        (matrix4MultiplyStep_id_left _).symm
      _ = Matrix4.matrix4MultiplyStep
            (Matrix4.matrix4MultiplyStep (Matrix4.transpose M') M')
            (Matrix4.scalarMultiply (1 / Matrix4.inverseDet M')
              (Matrix4.inverseAdjugate M')) := by rw [hMtM]
      _ = Matrix4.matrix4MultiplyStep (Matrix4.transpose M')
            (Matrix4.matrix4MultiplyStep M'
              (Matrix4.scalarMultiply (1 / Matrix4.inverseDet M')
                (Matrix4.inverseAdjugate M'))) := matrix4MultiplyStep_assoc _ _ _
      _ = Matrix4.matrix4MultiplyStep (Matrix4.transpose M') Matrix4.identityMatrix := by
        rw [hMN]
      _ = Matrix4.transpose M' := matrix4MultiplyStep_id_right _
  rw [Matrix4.inverse, if_neg hd0]
  exact hfinal

/-- C6 witness: a concrete 90-degree rotation about the z axis. -/
theorem inverse_eq_transpose_witness :
    Matrix4.inverse ⟨0, 1, 0, 0, -1, 0, 0, 0, 0, 0, 1, 0, 0, 0, 0, 1⟩
      = Matrix4.transpose ⟨0, 1, 0, 0, -1, 0, 0, 0, 0, 0, 1, 0, 0, 0, 0, 1⟩ :=
  inverse_eq_transpose_of_orthonormal ⟨0, 1, 0, 0, -1, 0, 0, 0, 0, 0, 1, 0, 0, 0, 0, 1⟩
    (by norm_num) (by norm_num) (by norm_num) (by norm_num) (by norm_num) (by norm_num)
    (by norm_num) (by norm_num) (by norm_num) (by norm_num) (by norm_num) (by norm_num)
    (by norm_num) (by norm_num) (by norm_num) (by norm_num) (by norm_num) (by norm_num)
    (by norm_num)

/-- C10 witness: the x-axis shear with concrete scalars. -/
theorem setShear_translation_row_witness :
    ((Matrix4.setShearElementary 'x' 2 3).tx = 0 ∧
     (Matrix4.setShearElementary 'x' 2 3).ty = 0 ∧
     (Matrix4.setShearElementary 'x' 2 3).tz = 0 ∧
     (Matrix4.setShearElementary 'x' 2 3).tw = 1) ∧
    ((Matrix4.setShear Matrix4.identityMatrix 'x' 2 3).tx = 0 ∧
     (Matrix4.setShear Matrix4.identityMatrix 'x' 2 3).ty = 0 ∧
     (Matrix4.setShear Matrix4.identityMatrix 'x' 2 3).tz = 0 ∧
     (Matrix4.setShear Matrix4.identityMatrix 'x' 2 3).tw = 1) :=
  setShear_translation_row 'x' (by simp) 2 3

end VUtils
